import Mathlib

/-!
Verification of the CLIP image-analysis pipeline (clip-app) against its
specification.  The Python sources are shallowly embedded: JSON message
payloads become `JVal` dictionaries, the in-memory request tables of
`simple_api.py` become association lists, broker/store side effects become
explicit event traces, and Python exceptions become `Except PyExc`.
Numeric confidence scores (Python floats, always `round(x, 2)` in the code)
are carried opaquely as integers in hundredths; no claim computes on them.
Timestamps (`datetime.utcnow().isoformat()`) are nondeterministic and are
passed in as explicit `String` parameters.
-/

namespace ClipApp

/-- JSON-like values, the payloads of Kafka messages and HTTP responses. -/
inductive JVal where
  | null
  | s (v : String)
  | n (v : Int)
  | b (v : Bool)
  | arr (vs : List JVal)
  | obj (fs : List (String × JVal))

/-- A Python dict with string keys, as used for message payloads. -/
def PyDict := List (String × JVal)

/-- `d[k]` / `d.get(k)`: first binding of `k` in the association list. -/
def dictGet (d : PyDict) (k : String) : Option JVal :=
  match d with
  | [] => none
  | (k', v) :: rest => if k' = k then some v else dictGet rest k

/-- `d.get(k, default)`: lookup with a default. -/
def dictGetD (d : PyDict) (k : String) (v₀ : JVal) : JVal :=
  (dictGet d k).getD v₀

/-- Python exceptions that the embedded handlers can raise. -/
inductive PyExc where
  | http (code : Nat) (detail : String)
  | typeError (msg : String)
  | attrError (attr : String)
deriving Repr, DecidableEq

/-- `str(e)` for the exceptions above; FastAPI's `HTTPException` prints as
`"<code>: <detail>"`. -/
def excText : PyExc → String
  | .http code detail => toString code ++ ": " ++ detail
  | .typeError m => m
  | .attrError a => a

/-- Truthiness of an optional Python string: `None` and `""` are falsy. -/
def pyTruthy : Option String → Bool
  | none => false
  | some s => s ≠ ""

/-- Python's `s.startswith(p)`, as a check on the character sequences. -/
def pyStartsWith (s p : String) : Bool :=
  p.data.isPrefixOf s.data

/-! ## kafka_config.py -/

/-- `KafkaResultsProducer.send_analysis_result` (kafka_config.py:186):
builds the result message published on `analysis-results`, keyed by
`request_id`.  The status is `'completed' if not error else 'failed'`,
i.e. it tests the truthiness of the error string. -/
def send_analysis_result (request_id : String) (results : JVal) (user_id : String)
    (ts : String) (processing_time : Option Int) (error : Option String) : PyDict :=
  [("request_id", .s request_id),
   ("user_id", .s user_id),
   ("results", results),
   ("processing_time", match processing_time with | none => .null | some t => .n t),
   ("error", match error with | none => .null | some e => .s e),
   ("timestamp", .s ts),
   ("status", .s (if pyTruthy error then "failed" else "completed"))]

/-- An `AnalysisRequest` message as built by
`KafkaImageProducer.send_image_for_analysis` (kafka_config.py:67); the
producer always populates exactly these fields. -/
structure RequestMessage where
  request_id : String
  user_id : String
  filename : String
  image_data : String
  timestamp : String
  status : String
deriving Repr, DecidableEq

/-- Outcome of `CLIPImageProcessor.analyze_image` (image_processor.py:110):
either an ordered prediction list plus the elapsed time, or the raised
exception's text `str(e)`. -/
inductive AnalysisOutcome where
  | ok (results : JVal) (time : Int)
  | err (msg : String)

/-! ## image_processor.py -/

/-- `CLIPImageProcessor.process_image_message` (image_processor.py:172):
analyse the payload and publish one result; on an analysis exception,
publish an error result with empty predictions instead (and no
`processing_time`).  Returns the list of messages published to
`analysis-results`; broker sends are modelled as succeeding. -/
def process_image_message (analyze : String → AnalysisOutcome) (ts : String)
    (msg : RequestMessage) : List PyDict :=
  match analyze msg.image_data with
  | .ok results t =>
      [send_analysis_result msg.request_id results msg.user_id ts (some t) none]
  | .err e =>
      [send_analysis_result msg.request_id (.arr []) msg.user_id ts none (some e)]

/-- `KafkaImageConsumer.consume_images` (kafka_config.py:151): the consume
loop runs the per-message body inside `try/except Exception: continue`.
`body` models the loop body (deserialisation, logging and the processing
callback), returning `Except` for a raised exception.  The result records
each message together with the outcome of its body. -/
def consume_images (body : RequestMessage → Except String Unit) :
    List RequestMessage → List (RequestMessage × Option String)
  | [] => []
  | m :: rest =>
      match body m with
      | .ok _ => (m, none) :: consume_images body rest
      | .error e => (m, some e) :: consume_images body rest

/-! ## Association-list helpers (Python dict assignment / `pop` / lookup) -/

/-- `d.pop(k, None)`: drop every binding of `k`. -/
def alRemove (l : List (String × α)) (k : String) : List (String × α) :=
  l.filter (fun p => p.1 ≠ k)

/-- `d[k] = v` on a Python dict: the new binding shadows any old one. -/
def alSet (l : List (String × α)) (k : String) (v : α) : List (String × α) :=
  (k, v) :: alRemove l k

/-- `k in d` / `d.get(k)`: first binding of `k`. -/
def alGet (l : List (String × α)) (k : String) : Option α :=
  match l with
  | [] => none
  | (k', v) :: rest => if k' = k then some v else alGet rest k

theorem alRemove_cons_self (p : String × α) (rest : List (String × α)) (k : String)
    (h : p.1 = k) : alRemove (p :: rest) k = alRemove rest k := by
  rw [alRemove, alRemove, List.filter_cons_of_neg (by simp [h])]

theorem alRemove_cons_ne (p : String × α) (rest : List (String × α)) (k : String)
    (h : ¬ p.1 = k) : alRemove (p :: rest) k = p :: alRemove rest k := by
  rw [alRemove, alRemove, List.filter_cons_of_pos (by simp [h])]

theorem alGet_alRemove_self (l : List (String × α)) (k : String) :
    alGet (alRemove l k) k = none := by
  induction l with
  | nil => rfl
  | cons p rest ih =>
      by_cases h : p.1 = k
      · rw [alRemove_cons_self p rest k h]; exact ih
      · rw [alRemove_cons_ne p rest k h]
        simpa [alGet, h] using ih

theorem alGet_alRemove_ne (l : List (String × α)) (k k' : String) (hk : k ≠ k') :
    alGet (alRemove l k) k' = alGet l k' := by
  induction l with
  | nil => rfl
  | cons p rest ih =>
      by_cases h1 : p.1 = k
      · rw [alRemove_cons_self p rest k h1, ih]
        have h2 : ¬ p.1 = k' := by rw [h1]; exact hk
        simp [alGet, h2]
      · rw [alRemove_cons_ne p rest k h1]
        by_cases h2 : p.1 = k' <;> simp [alGet, h2, ih]

theorem alGet_alSet_self (l : List (String × α)) (k : String) (v : α) :
    alGet (alSet l k v) k = some v := by
  simp [alSet, alGet]

theorem alGet_alSet_ne (l : List (String × α)) (k k' : String) (v : α) (hk : k ≠ k') :
    alGet (alSet l k v) k' = alGet l k' := by
  rw [alSet]
  show (if k = k' then some v else alGet (alRemove l k) k') = alGet l k'
  rw [if_neg hk, alGet_alRemove_ne l k k' hk]

/-! ## simple_api.py — in-memory state and endpoints -/

/-- The two module-level dicts of simple_api.py (lines 25–26):
`analysis_results` and `pending_requests`, both keyed by request id. -/
structure ApiState where
  analysis_results : List (String × PyDict)
  pending_requests : List (String × PyDict)

/-- `handle_analysis_result` (simple_api.py:51): the results-consumer
callback stores the message under its `request_id` and drops the pending
entry; a missing or falsy `request_id` is ignored.  Result messages are
produced by `send_analysis_result`, whose `request_id` field is a string. -/
def handle_analysis_result (st : ApiState) (result_data : PyDict) : ApiState :=
  match dictGet result_data "request_id" with
  | some (.s rid) =>
      if rid = "" then st
      else { analysis_results := alSet st.analysis_results rid result_data
             pending_requests := alRemove st.pending_requests rid }
  | _ => st

/-- `get_status` (simple_api.py:167): `completed` when a result is stored,
else the pending entry's recorded status, else `not_found`.  Returns
`none` for the impossible case of a pending entry without a string
`status` field (a `KeyError` in Python). -/
def get_status (st : ApiState) (rid : String) : Option String :=
  if (alGet st.analysis_results rid).isSome then some "completed"
  else
    match alGet st.pending_requests rid with
    | some p =>
        match dictGet p "status" with
        | some (.s s) => some s
        | _ => none
    | none => some "not_found"

/-- `get_result` (simple_api.py:204): 202 while pending, 404 if unknown,
otherwise a response assembled by `.get`-reads from the stored result
message. -/
def get_result (st : ApiState) (rid : String) : Except PyExc PyDict :=
  match alGet st.analysis_results rid with
  | none =>
      match alGet st.pending_requests rid with
      | some _ => .error (.http 202 "Analysis still in progress. Check /status/\x7brequest_id\x7d")
      | none => .error (.http 404 "Request ID not found")
  | some result =>
      .ok [("request_id", .s rid),
           ("status", .s "completed"),
           ("analysis", .obj
              [("predictions", dictGetD result "predictions" (.arr [])),
               ("confidence_scores", dictGetD result "confidence_scores" (.arr [])),
               ("top_prediction", dictGetD result "top_prediction" .null),
               ("processing_time_seconds", dictGetD result "processing_time_seconds" .null),
               ("model_info", dictGetD result "model_info" (.obj []))]),
           ("metadata", .obj
              [("filename", dictGetD result "filename" .null),
               ("analyzed_at", dictGetD result "timestamp" .null),
               ("image_dimensions", dictGetD result "image_dimensions" .null)])]

/-- `cleanup_old_results` (simple_api.py:258): clears both tables. -/
def cleanup_old_results (_st : ApiState) : ApiState :=
  { analysis_results := [], pending_requests := [] }

/-- The operations of the claim C8 scenario: a result arriving from the
background consumer, a status read (pure), and `DELETE /cleanup`. -/
inductive ApiOp where
  | resultArrives (result_data : PyDict)
  | statusRead (rid : String)
  | cleanup

/-- One step of the simple_api state under an operation. -/
def apiStep (st : ApiState) : ApiOp → ApiState
  | .resultArrives d => handle_analysis_result st d
  | .statusRead _ => st
  | .cleanup => cleanup_old_results st

/-- Run a sequence of operations. -/
def apiRun (st : ApiState) : List ApiOp → ApiState
  | [] => st
  | op :: ops => apiRun (apiStep st op) ops

/-! ## HTTP responses and Python keyword-argument binding -/

/-- An HTTP endpoint outcome: a JSON body, or a raised `HTTPException`. -/
inductive ApiResponse where
  | ok (body : PyDict)
  | httpError (code : Nat) (detail : String)

/-- The HTTP status code of a response (FastAPI returns 200 for a plain
dict body). -/
def statusCode : ApiResponse → Nat
  | .ok _ => 200
  | .httpError c _ => c

/-- An uploaded file as the endpoints see it: `filename`, `content_type`,
and the number of bytes returned by `await file.read()`. -/
structure UploadedFile where
  filename : String
  content_type : String
  data_len : Nat
deriving Repr, DecidableEq

/-- The keyword parameters of
`KafkaImageProducer.send_image_for_analysis(self, image_data, filename, user_id=None)`
(kafka_config.py:67). -/
def send_image_for_analysis_params : List String :=
  ["image_data", "filename", "user_id"]

/-- The keyword arguments `simple_api.analyze_image` passes to
`send_image_for_analysis` (simple_api.py:141–146). -/
def analyze_image_call_kwargs : List String :=
  ["image_data", "filename", "request_id", "user_id"]

/-- Python call binding: a keyword argument that names no parameter of the
callee raises `TypeError: <fn>() got an unexpected keyword argument <kw>`. -/
def checkKwargs (fn : String) (params kwargs : List String) : Option PyExc :=
  match kwargs.filter (fun k => ¬ params.contains k) with
  | [] => none
  | k :: _ => some (.typeError (fn ++ "() got an unexpected keyword argument " ++ k))

/-! ## realtime_app.py — upload path as an explicit event trace -/

/-- Observable side effects of the realtime upload path: a broker publish
(topic, key), the three Redis operations of
`ConnectionManager.add_request_for_user` (realtime_app.py:75), and a
WebSocket send. -/
inductive Event where
  | publish (topic : String) (key : String)
  | storeListPush (key : String) (value : String)
  | storeExpire (key : String) (ttl : Nat)
  | storeSet (key : String) (value : String) (ttl : Nat)
  | wsSend (user_id : String) (msgType : String)
deriving Repr, DecidableEq

/-- Is the event a write to the shared correlation store? -/
def isStoreWrite : Event → Bool
  | .storeListPush _ _ => true
  | .storeExpire _ _ => true
  | .storeSet _ _ _ => true
  | _ => false

/-- Is the event a broker publish? -/
def isPublish : Event → Bool
  | .publish _ _ => true
  | _ => false

/-- Does some store write occur strictly before some broker publish? -/
def storeThenPublish : List Event → Bool
  | [] => false
  | e :: rest => (isStoreWrite e && rest.any isPublish) || storeThenPublish rest

/-- `ConnectionManager.add_request_for_user` (realtime_app.py:75): both
directions of the correlation entry — `lpush` + `expire 3600` on
`user_requests:<user_id>`, and `set ... ex=3600` on
`request_user:<request_id>`.  Redis calls are modelled as succeeding. -/
def add_request_for_user (user_id request_id : String) : List Event :=
  [.storeListPush ("user_requests:" ++ user_id) request_id,
   .storeExpire ("user_requests:" ++ user_id) 3600,
   .storeSet ("request_user:" ++ request_id) user_id 3600]

/-- `upload_image` (realtime_app.py:224).  The whole body runs inside
`try/except Exception`, and FastAPI's `HTTPException` is an `Exception`,
so the validation `HTTPException(400, ...)` raises are caught at line 277
and re-raised as `HTTPException(500, str(e))`.  On the success path the
producer publishes the job (generating `rid`), then the correlation entry
is written, then an `upload_received` push is attempted (delivered only if
`user_id` has a live WebSocket in `registry`).  Returns the emitted event
trace and the response. -/
def upload_image (file? : Option UploadedFile) (user_id : String) (rid : String)
    (registry : List String) : List Event × ApiResponse :=
  match file? with
  | none => ([], .httpError 500 (excText (.http 400 "No file provided")))
  | some file =>
      if pyStartsWith file.content_type "image/" = false then
        ([], .httpError 500 (excText (.http 400 "File must be an image")))
      else if file.data_len > 10 * 1024 * 1024 then
        ([], .httpError 500 (excText (.http 400 "Image too large (max 10MB)")))
      else
        let evs := Event.publish "image-uploads" rid :: add_request_for_user user_id rid
          ++ (if user_id ∈ registry then [Event.wsSend user_id "upload_received"] else [])
        (evs, .ok [("status", .s "success"),
                   ("request_id", .s rid),
                   ("message", .s "Image uploaded and queued for processing")])

/-! ## realtime_app.py — result routing -/

/-- Outcome of the Redis `get` on `request_user:<request_id>`: an owner
string, no entry, or a raised Redis error. -/
inductive StoreLookup where
  | found (uid : String)
  | missing
  | err (msg : String)
deriving Repr, DecidableEq

/-- `ConnectionManager.get_user_for_request` (realtime_app.py:90): returns
the owner when the Redis value is truthy; a missing key, an empty string,
or a Redis exception (caught at line 103) all yield `None`. -/
def get_user_for_request : StoreLookup → Option String
  | .found uid => if uid = "" then none else some uid
  | .missing => none
  | .err _ => none

/-- `handle_result` inside `consume_results` (realtime_app.py:128): look
up the owner; if one is found and it has a live WebSocket in the local
registry, deliver the result to it, else do nothing.  Exceptions while
sending are caught (lines 58–60 and 163–164), so the handler is total.
Returns the user the result was delivered to, or `none` for a no-op. -/
def handle_result (lookup : StoreLookup) (registry : List String) : Option String :=
  match get_user_for_request lookup with
  | some uid => if uid ∈ registry then some uid else none
  | none => none

/-! ## realtime_app.py — /stats -/

/-- The attributes a `ConnectionManager` instance has: the two fields set
by `__init__` (realtime_app.py:33–36) and the six methods of the class.
No attribute named `user_requests` is ever defined (the per-user request
index moved to Redis under keys `user_requests:<user_id>`). -/
def connection_manager_attrs : List String :=
  ["active_connections", "redis_client",
   "connect", "disconnect", "send_personal_message", "broadcast",
   "add_request_for_user", "get_user_for_request"]

/-- Python attribute access `manager.<name>`: `AttributeError` when the
instance has no such attribute. -/
def getattrCM (name : String) : Except PyExc Unit :=
  if connection_manager_attrs.contains name then .ok () else .error (.attrError name)

/-- `get_stats` (realtime_app.py:295): evaluates
`len(manager.active_connections)` and then `len(manager.user_requests)`.
`nConn` is the number of live connections; the timestamp is `ts`. -/
def realtime_get_stats (nConn : Nat) (ts : String) : Except PyExc PyDict :=
  match getattrCM "active_connections" with
  | .error e => .error e
  | .ok _ =>
      match getattrCM "user_requests" with
      | .error e => .error e
      | .ok _ =>
          .ok [("active_connections", .n nConn),
               ("total_users", .n 0),
               ("kafka_connected", .b true),
               ("timestamp", .s ts)]

/-- FastAPI maps an uncaught non-HTTP exception to a 500 response. -/
def httpStatusOf : Except PyExc PyDict → Nat
  | .ok _ => 200
  | .error (.http c _) => c
  | .error _ => 500

/-! ## simple_api.py — the /analyze-image endpoint -/

/-- `analyze_image` (simple_api.py:109).  The whole body runs inside
`try/except Exception` whose handler re-raises `HTTPException(500, str(e))`,
so the validation `HTTPException(400, ...)` raises surface as 500.  On a
valid image the handler stores a pending entry and then calls
`send_image_for_analysis(image_data=..., filename=..., request_id=...,
user_id="api-user")`; the callee has no `request_id` parameter, so the
call itself raises `TypeError`, which the same handler turns into a 500 —
the pending entry written just before remains in the table.  Returns the
new state, the broker events, and the response. -/
def analyze_image (st : ApiState) (file : UploadedFile) (rid : String) (ts : String) :
    ApiState × List Event × ApiResponse :=
  if pyStartsWith file.content_type "image/" = false then
    (st, [], .httpError 500 (excText (.http 400 "File must be an image")))
  else if file.data_len > 10 * 1024 * 1024 then
    (st, [], .httpError 500 (excText (.http 400 "Image too large (max 10MB)")))
  else
    let pendingEntry : PyDict :=
      [("filename", .s file.filename),
       ("content_type", .s file.content_type),
       ("size", .n file.data_len),
       ("submitted_at", .s ts),
       ("status", .s "submitted")]
    let st1 : ApiState :=
      { st with pending_requests := alSet st.pending_requests rid pendingEntry }
    match checkKwargs "send_image_for_analysis"
        send_image_for_analysis_params analyze_image_call_kwargs with
    | some exc => (st1, [], .httpError 500 (excText exc))
    | none =>
        -- unreachable: the call site always passes the unknown keyword
        -- `request_id`; kept for fidelity to the success branch at
        -- simple_api.py:148–158
        let pendingEntry2 := alSet pendingEntry "status" (JVal.s "processing")
        let st2 : ApiState :=
          { st1 with pending_requests := alSet st1.pending_requests rid pendingEntry2 }
        (st2, [Event.publish "image-uploads" rid],
         .ok [("request_id", .s rid),
              ("status", .s "accepted"),
              ("message", .s "Image submitted for analysis"),
              ("filename", .s file.filename),
              ("size_bytes", .n file.data_len)])

/-! ## Theorems for the claims -/

/-- C9: for every sequence of dequeued messages and every per-message body,
an exception raised while processing one message is caught inside the
consume loop, and the loop still invokes the body on every message, in
order: the processed-message trace of `consume_images` is exactly the
input sequence, whatever subset of bodies fail. -/
theorem C9_failure_does_not_halt_loop (body : RequestMessage → Except String Unit)
    (msgs : List RequestMessage) :
    (consume_images body msgs).map Prod.fst = msgs := by
  induction msgs with
  | nil => rfl
  | cons m rest ih =>
      cases hb : body m <;> simp [consume_images, hb, ih]

/-- C10: every call to `GET /stats` on the realtime app raises
`AttributeError` on `manager.user_requests` — the `ConnectionManager`
instance has no such attribute after the per-user request index moved to
Redis — and FastAPI surfaces the uncaught exception as a 500 response. -/
theorem C10_stats_raises_attribute_error (nConn : Nat) (ts : String) :
    realtime_get_stats nConn ts = .error (.attrError "user_requests") ∧
    httpStatusOf (realtime_get_stats nConn ts) = 500 :=
  ⟨rfl, rfl⟩

/-- C4: the result router delivers a consumed result over a client
connection if and only if the correlation-store lookup of the request id
returns an owner and that owner has a live connection in the local
registry; a missing entry or a store error makes delivery a no-op, and the
handler (a total function here) propagates no error.  The registry never
holds an empty user id, since WebSocket sessions register under a
non-empty path segment. -/
theorem C4_delivery_iff_owner_connected (lookup : StoreLookup) (registry : List String)
    (hreg : "" ∉ registry) :
    (∀ uid, handle_result lookup registry = some uid ↔
        (lookup = .found uid ∧ uid ∈ registry)) ∧
    ((lookup = .missing ∨ ∃ m, lookup = .err m) → handle_result lookup registry = none) := by
  constructor
  · intro uid
    cases lookup with
    | found v =>
        by_cases hv : v = ""
        · subst hv
          constructor
          · intro h
            exact absurd h (by simp [handle_result, get_user_for_request])
          · rintro ⟨heq, hmem⟩
            have h2 : "" = uid := by injection heq
            rw [← h2] at hmem
            exact absurd hmem hreg
        · have hg : get_user_for_request (.found v) = some v := by
            simp [get_user_for_request, hv]
          constructor
          · intro h
            by_cases hc : v ∈ registry
            · have hvu : some v = some uid := by
                simpa [handle_result, hg, hc] using h
              have h2 : v = uid := by injection hvu
              exact ⟨by rw [h2], by rw [← h2]; exact hc⟩
            · exact absurd h (by simp [handle_result, hg, hc])
          · rintro ⟨heq, hc⟩
            have h2 : v = uid := by injection heq
            subst h2
            simp [handle_result, hg, hc]
    | missing => simp [handle_result, get_user_for_request]
    | err m => simp [handle_result, get_user_for_request]
  · rintro (h | ⟨m, h⟩) <;> subst h <;> rfl

/-- C4 witness: a found owner with a live connection receives the result;
a missing correlation entry makes delivery a no-op. -/
theorem C4_delivery_iff_owner_connected_witness :
    handle_result (.found "alice") ["alice"] = some "alice" ∧
    handle_result .missing ["alice"] = none :=
  ⟨((C4_delivery_iff_owner_connected (.found "alice") ["alice"] (by decide)).1 "alice").mpr
      ⟨rfl, by decide⟩,
   (C4_delivery_iff_owner_connected .missing ["alice"] (by decide)).2 (Or.inl rfl)⟩

/-- The call from `simple_api.analyze_image` to `send_image_for_analysis`
always raises: `request_id` names no parameter of the callee. -/
theorem checkKwargs_analyze_image :
    checkKwargs "send_image_for_analysis"
        send_image_for_analysis_params analyze_image_call_kwargs =
      some (.typeError
        "send_image_for_analysis() got an unexpected keyword argument request_id") := by
  rfl

/-- C1: on `POST /analyze-image`, every multipart upload with an image
content type and a payload within the 10 MB limit is answered with HTTP
500, not `{request_id, status:"accepted"}`: the handler calls
`send_image_for_analysis` with a `request_id` keyword the callee does not
accept, the resulting `TypeError` is caught by the blanket handler and
re-raised as `HTTPException(500)`, and nothing is published to the
broker. -/
theorem C1_valid_upload_returns_500 (st : ApiState) (file : UploadedFile)
    (rid ts : String)
    (h1 : pyStartsWith file.content_type "image/" = true)
    (h2 : file.data_len ≤ 10 * 1024 * 1024) :
    (analyze_image st file rid ts).2.2 =
      .httpError 500 "send_image_for_analysis() got an unexpected keyword argument request_id" ∧
    (analyze_image st file rid ts).2.1 = [] ∧
    statusCode (analyze_image st file rid ts).2.2 = 500 := by
  have hns : ¬ (file.data_len > 10 * 1024 * 1024) := not_lt.mpr h2
  unfold analyze_image
  rw [if_neg (by simp [h1]), if_neg hns, checkKwargs_analyze_image]
  exact ⟨rfl, rfl, rfl⟩

/-- C1 witness: a 50 KB JPEG upload gets the 500 `TypeError` response. -/
theorem C1_valid_upload_returns_500_witness :
    (analyze_image ⟨[], []⟩ ⟨"photo.jpg", "image/jpeg", 51200⟩ "r1" "t1").2.2 =
      .httpError 500 "send_image_for_analysis() got an unexpected keyword argument request_id" :=
  (C1_valid_upload_returns_500 ⟨[], []⟩ ⟨"photo.jpg", "image/jpeg", 51200⟩ "r1" "t1"
    (by decide) (by decide)).1

/-- C2: an upload with a non-image content type or an oversized payload is
answered with HTTP 500, not 400, on both upload endpoints: the
`HTTPException(400, ...)` raised by validation is itself an `Exception`,
so the blanket `except Exception` handler catches it and re-raises
`HTTPException(500, str(e))`. -/
theorem C2_validation_rejected_with_500 (st : ApiState) (file : UploadedFile)
    (uid rid ts : String) (registry : List String)
    (h : pyStartsWith file.content_type "image/" = false ∨
      file.data_len > 10 * 1024 * 1024) :
    statusCode (upload_image (some file) uid rid registry).2 = 500 ∧
    statusCode (analyze_image st file rid ts).2.2 = 500 ∧
    (500 : Nat) ≠ 400 := by
  refine ⟨?_, ?_, by decide⟩
  · simp only [upload_image]
    rcases h with h | h
    · rw [if_pos h]; rfl
    · by_cases hct : pyStartsWith file.content_type "image/" = false
      · rw [if_pos hct]; rfl
      · rw [if_neg hct, if_pos h]; rfl
  · simp only [analyze_image]
    rcases h with h | h
    · rw [if_pos h]; rfl
    · by_cases hct : pyStartsWith file.content_type "image/" = false
      · rw [if_pos hct]; rfl
      · rw [if_neg hct, if_pos h]; rfl

/-- C2 witness: a `text/plain` upload is answered with 500 on the
realtime endpoint. -/
theorem C2_validation_rejected_with_500_witness :
    statusCode (upload_image (some ⟨"notes.txt", "text/plain", 100⟩) "u1" "r1" []).2 = 500 :=
  (C2_validation_rejected_with_500 ⟨[], []⟩ ⟨"notes.txt", "text/plain", 100⟩ "u1" "r1" "t1" []
    (Or.inl (by decide))).1

/-- C6: an upload rejected by validation (bad content type or payload over
the 10 MB limit) produces no broker event and no correlation-store write
on the realtime endpoint, and no broker event and no state change on the
simple-api endpoint: the rejection leaves broker and store state
unchanged. -/
theorem C6_rejection_leaves_no_trace (st : ApiState) (file : UploadedFile)
    (uid rid ts : String) (registry : List String)
    (h : pyStartsWith file.content_type "image/" = false ∨
      file.data_len > 10 * 1024 * 1024) :
    (upload_image (some file) uid rid registry).1 = [] ∧
    (analyze_image st file rid ts).2.1 = [] ∧
    (analyze_image st file rid ts).1 = st := by
  refine ⟨?_, ?_, ?_⟩
  · simp only [upload_image]
    rcases h with h | h
    · rw [if_pos h]
    · by_cases hct : pyStartsWith file.content_type "image/" = false
      · rw [if_pos hct]
      · rw [if_neg hct, if_pos h]
  · simp only [analyze_image]
    rcases h with h | h
    · rw [if_pos h]
    · by_cases hct : pyStartsWith file.content_type "image/" = false
      · rw [if_pos hct]
      · rw [if_neg hct, if_pos h]
  · simp only [analyze_image]
    rcases h with h | h
    · rw [if_pos h]
    · by_cases hct : pyStartsWith file.content_type "image/" = false
      · rw [if_pos hct]
      · rw [if_neg hct, if_pos h]

/-- C6 witness: an 11 MB JPEG upload emits no broker or store event. -/
theorem C6_rejection_leaves_no_trace_witness :
    (upload_image (some ⟨"huge.jpg", "image/jpeg", 11534336⟩) "u1" "r1" ["u1"]).1 = [] :=
  (C6_rejection_leaves_no_trace ⟨[], []⟩ ⟨"huge.jpg", "image/jpeg", 11534336⟩ "u1" "r1" "t1"
    ["u1"] (Or.inr (by decide))).1

/-- C3 (amended): for every dequeued `AnalysisRequest` and every behaviour
of the analysis engine, the orchestrator publishes exactly one result
carrying the same `request_id`; on an analysis failure the result carries
the raised error text and an empty results list, and its status is
`"failed"` when the error text is non-empty but `"completed"` when it is
empty (the producer tests the error's truthiness, and `""` is falsy);
accordingly, status is `"completed"` exactly when the error field is
absent or the empty string. -/
theorem C3_amended_one_terminal_result (analyze : String → AnalysisOutcome)
    (ts : String) (msg : RequestMessage) :
    (process_image_message analyze ts msg).length = 1 ∧
    (∀ d ∈ process_image_message analyze ts msg,
        dictGet d "request_id" = some (.s msg.request_id) ∧
        (dictGet d "status" = some (.s "completed") ↔
          (dictGet d "error" = some .null ∨ dictGet d "error" = some (.s "")))) ∧
    (∀ e, analyze msg.image_data = .err e →
        ∀ d ∈ process_image_message analyze ts msg,
          dictGet d "results" = some (.arr []) ∧
          dictGet d "error" = some (.s e) ∧
          dictGet d "status" = some (.s (if e = "" then "completed" else "failed"))) ∧
    (∀ results t, analyze msg.image_data = .ok results t →
        ∀ d ∈ process_image_message analyze ts msg,
          dictGet d "error" = some .null ∧
          dictGet d "status" = some (.s "completed")) := by
  cases ha : analyze msg.image_data with
  | ok results t =>
      refine ⟨?_, ?_, ?_, ?_⟩
      · simp [process_image_message, ha]
      · intro d hd
        simp only [process_image_message, ha, List.mem_singleton] at hd
        subst hd
        refine ⟨rfl, ?_⟩
        constructor
        · intro _
          left
          rfl
        · intro _
          rfl
      · intro e he
        exact absurd he (by simp)
      · intro results' t' _ d hd
        simp only [process_image_message, ha, List.mem_singleton] at hd
        subst hd
        exact ⟨rfl, rfl⟩
  | err e =>
      refine ⟨?_, ?_, ?_, ?_⟩
      · simp [process_image_message, ha]
      · intro d hd
        simp only [process_image_message, ha, List.mem_singleton] at hd
        subst hd
        refine ⟨rfl, ?_⟩
        by_cases he : e = ""
        · subst he
          constructor
          · intro _
            right
            rfl
          · intro _
            simp [send_analysis_result, dictGet, pyTruthy]
        · constructor
          · intro hs
            have : (JVal.s (if pyTruthy (some e) then "failed" else "completed"))
                = JVal.s "completed" := by
              have := hs
              simpa [send_analysis_result, dictGet] using this
            have hft : pyTruthy (some e) = true := by simp [pyTruthy, he]
            rw [hft] at this
            exact absurd (by injection this) (by decide)
          · rintro (hn | hn) <;>
              · exfalso
                have := hn
                simp only [send_analysis_result, dictGet] at this
                revert this
                simp [he]
      · intro e' he' d hd
        have hee : e = e' := by injection he'
        subst hee
        simp only [process_image_message, ha, List.mem_singleton] at hd
        subst hd
        refine ⟨rfl, rfl, ?_⟩
        by_cases he : e = ""
        · subst he
          simp [send_analysis_result, dictGet, pyTruthy]
        · have hft : pyTruthy (some e) = true := by simp [pyTruthy, he]
          simp [send_analysis_result, dictGet, hft, he]
      · intro results t hok
        exact absurd hok (by simp)

/-- Fixture message for the C3 scenario. -/
def msgC3 : RequestMessage :=
  ⟨"r2", "u2", "img.png", "payload", "t0", "pending"⟩

/-- C3 counterexample: an analysis failure whose exception text is empty
(`str(e) = ""`, e.g. a bare `Exception()`) is published with status
`"completed"`, not `"failed"` as the claim states: `'completed' if not
error else 'failed'` treats the empty error string as no error. -/
theorem C3_counterexample_empty_error_text :
    ((process_image_message (fun _ => .err "") "t1" msgC3).map
        (fun d => dictGet d "status")) = [some (.s "completed")] ∧
    ((process_image_message (fun _ => .err "") "t1" msgC3).map
        (fun d => dictGet d "error")) = [some (.s "")] ∧
    "completed" ≠ "failed" := by
  refine ⟨rfl, rfl, by decide⟩

/-- C3 witness: a failure with non-empty error text `"boom"` publishes
`results = []`, `error = "boom"`, `status = "failed"`. -/
theorem C3_amended_one_terminal_result_witness :
    dictGet (send_analysis_result "r2" (JVal.arr []) "u2" "t1" none (some "boom")) "results"
        = some (.arr []) ∧
    dictGet (send_analysis_result "r2" (JVal.arr []) "u2" "t1" none (some "boom")) "status"
        = some (.s "failed") := by
  have h := (C3_amended_one_terminal_result (fun _ => AnalysisOutcome.err "boom") "t1"
      msgC3).2.2.1 "boom" rfl
      (send_analysis_result "r2" (JVal.arr []) "u2" "t1" none (some "boom"))
      (List.mem_singleton.mpr rfl)
  exact ⟨h.1, by simpa using h.2.2⟩

/-! ## C5: order of store write and broker publish on the realtime upload -/

/-- C5 (amended): on every successful upload the realtime Ingress writes
both directions of the correlation entry — the user→requests list push
with a 3600 s expiry and the request→user reverse key with a 3600 s expiry
— but these writes happen after the broker publish, not before it: the
publish call is what generates the `request_id` the entry is keyed by, so
the trace starts with the publish and no store write precedes it. -/
theorem C5_amended_store_written_after_publish (file : UploadedFile)
    (uid rid : String) (registry : List String)
    (h1 : pyStartsWith file.content_type "image/" = true)
    (h2 : file.data_len ≤ 10 * 1024 * 1024) :
    (upload_image (some file) uid rid registry).1.head? =
      some (.publish "image-uploads" rid) ∧
    Event.storeListPush ("user_requests:" ++ uid) rid ∈
      (upload_image (some file) uid rid registry).1 ∧
    Event.storeExpire ("user_requests:" ++ uid) 3600 ∈
      (upload_image (some file) uid rid registry).1 ∧
    Event.storeSet ("request_user:" ++ rid) uid 3600 ∈
      (upload_image (some file) uid rid registry).1 ∧
    storeThenPublish (upload_image (some file) uid rid registry).1 = false := by
  have hns : ¬ (file.data_len > 10 * 1024 * 1024) := not_lt.mpr h2
  have hev : (upload_image (some file) uid rid registry).1 =
      Event.publish "image-uploads" rid :: add_request_for_user uid rid
        ++ (if uid ∈ registry then [Event.wsSend uid "upload_received"] else []) := by
    simp only [upload_image]
    rw [if_neg (by simp [h1]), if_neg hns]
  rw [hev]
  refine ⟨rfl, ?_, ?_, ?_, ?_⟩
  · simp [add_request_for_user]
  · simp [add_request_for_user]
  · simp [add_request_for_user]
  · by_cases hr : uid ∈ registry <;>
      simp [hr, add_request_for_user, storeThenPublish, isStoreWrite, isPublish]

/-- C5 witness: the concrete 50 KB upload trace contains the reverse
correlation write with the 3600 s expiry. -/
theorem C5_amended_store_written_after_publish_witness :
    Event.storeSet ("request_user:" ++ "r1") "u1" 3600 ∈
      (upload_image (some ⟨"photo.jpg", "image/jpeg", 51200⟩) "u1" "r1" ["u1"]).1 :=
  (C5_amended_store_written_after_publish ⟨"photo.jpg", "image/jpeg", 51200⟩ "u1" "r1" ["u1"]
    (by decide) (by decide)).2.2.2.1

/-- The event trace of a concrete successful realtime upload. -/
def evsC5 : List Event :=
  (upload_image (some ⟨"photo.jpg", "image/jpeg", 51200⟩) "u1" "r1" ["u1"]).1

/-- C5 counterexample: in the concrete successful upload trace the broker
publish and both correlation-store writes all occur, yet no store write
precedes any publish — the correlation entry is written after the message
is published, contradicting the claimed write-before-publish order. -/
theorem C5_counterexample_publish_first :
    storeThenPublish evsC5 = false ∧
    evsC5.any isStoreWrite = true ∧
    evsC5.any isPublish = true := by
  refine ⟨rfl, rfl, rfl⟩

/-! ## C7: the store-then-query round trip for a successful result -/

/-- The result message the orchestrator publishes for request `"r1"`:
one prediction `("cat", 91.20 %)` (confidences in hundredths). -/
def resultC7 : PyDict :=
  send_analysis_result "r1"
    (JVal.arr [JVal.obj [("label", JVal.s "cat"), ("confidence", JVal.n 9120)]])
    "u1" "t2" (some 2) none

/-- The simple-api state after the background consumer stores `resultC7`
over a pending entry for `"r1"`. -/
def stC7 : ApiState :=
  handle_analysis_result
    { analysis_results := [], pending_requests := [("r1", [("status", JVal.s "processing")])] }
    resultC7

/-- C7: after a successful result for `"r1"` is consumed and stored,
`GET /status/r1` and `GET /result/r1` both report `completed`, but the
predictions are not preserved: the stored message carries them under the
key `results` while `get_result` reads `result.get("predictions", [])`,
so the response's `analysis.predictions` is the empty list, not the
published prediction list. -/
theorem C7_round_trip_loses_predictions :
    get_status stC7 "r1" = some "completed" ∧
    get_result stC7 "r1" = .ok
      [("request_id", .s "r1"),
       ("status", .s "completed"),
       ("analysis", .obj
          [("predictions", .arr []),
           ("confidence_scores", .arr []),
           ("top_prediction", .null),
           ("processing_time_seconds", .null),
           ("model_info", .obj [])]),
       ("metadata", .obj
          [("filename", .null),
           ("analyzed_at", .s "t2"),
           ("image_dimensions", .null)])] ∧
    dictGet resultC7 "results" =
      some (.arr [JVal.obj [("label", JVal.s "cat"), ("confidence", JVal.n 9120)]]) ∧
    JVal.arr [] ≠ JVal.arr [JVal.obj [("label", JVal.s "cat"), ("confidence", JVal.n 9120)]] := by
  refine ⟨rfl, rfl, rfl, ?_⟩
  intro h
  have h2 : ([] : List JVal)
      = [JVal.obj [("label", JVal.s "cat"), ("confidence", JVal.n 9120)]] := by
    injection h
  exact List.noConfusion h2

/-! ## C8: completed status never regresses -/

/-- One step of the simple-api tables preserves being terminally visible:
if a status read yields `completed` or `not_found`, it still does after a
result arrival, a status read, or a cleanup. -/
theorem get_status_step_terminal (st : ApiState) (rid : String) (op : ApiOp)
    (h : get_status st rid = some "completed" ∨ get_status st rid = some "not_found") :
    get_status (apiStep st op) rid = some "completed" ∨
    get_status (apiStep st op) rid = some "not_found" := by
  cases op with
  | statusRead r => exact h
  | cleanup => right; rfl
  | resultArrives d =>
      show get_status (handle_analysis_result st d) rid = some "completed" ∨
        get_status (handle_analysis_result st d) rid = some "not_found"
      unfold handle_analysis_result
      cases hg : dictGet d "request_id" with
      | none => exact h
      | some v =>
          cases v with
          | s rid' =>
              dsimp only
              by_cases hz : rid' = ""
              · rw [if_pos hz]
                exact h
              · rw [if_neg hz]
                by_cases hr : rid' = rid
                · subst hr
                  left
                  simp [get_status, alGet_alSet_self]
                · have hcongr :
                      get_status ⟨alSet st.analysis_results rid' d,
                        alRemove st.pending_requests rid'⟩ rid = get_status st rid := by
                    unfold get_status
                    rw [alGet_alSet_ne st.analysis_results rid' rid d hr,
                      alGet_alRemove_ne st.pending_requests rid' rid hr]
                  rw [hcongr]
                  exact h
          | null => exact h
          | n v => exact h
          | b v => exact h
          | arr vs => exact h
          | obj fs => exact h

/-- Terminal visibility is preserved by any sequence of operations. -/
theorem get_status_run_terminal (rid : String) (ops : List ApiOp) (st : ApiState)
    (h : get_status st rid = some "completed" ∨ get_status st rid = some "not_found") :
    get_status (apiRun st ops) rid = some "completed" ∨
    get_status (apiRun st ops) rid = some "not_found" := by
  induction ops generalizing st with
  | nil => exact h
  | cons op ops ih => exact ih (apiStep st op) (get_status_step_terminal st rid op h)

/-- C8: once `GET /status/{request_id}` reports `completed`, no later
status read reports `pending` or `processing` (nor the code's transient
`submitted`), for every sequence of result arrivals, status reads and
cleanup calls: every later read yields `completed`, or `not_found` after
a cleanup wiped both tables. -/
theorem C8_completed_status_never_regresses (st : ApiState) (rid : String)
    (ops : List ApiOp) (h : get_status st rid = some "completed") :
    (get_status (apiRun st ops) rid = some "completed" ∨
     get_status (apiRun st ops) rid = some "not_found") ∧
    get_status (apiRun st ops) rid ≠ some "pending" ∧
    get_status (apiRun st ops) rid ≠ some "processing" ∧
    get_status (apiRun st ops) rid ≠ some "submitted" := by
  have hterm := get_status_run_terminal rid ops st (Or.inl h)
  refine ⟨hterm, ?_, ?_, ?_⟩ <;>
    · rcases hterm with ht | ht <;> rw [ht] <;> intro hc <;>
        exact absurd (by injection hc) (by decide)

/-- C8 witness: after a result for `"r1"` is stored, a later unrelated
result arrival, a status read and a cleanup never make `"r1"` read as
`pending` again. -/
theorem C8_completed_status_never_regresses_witness :
    get_status
      (apiRun ⟨[("r1", [("status", JVal.s "x")])], []⟩
        [ApiOp.resultArrives [("request_id", JVal.s "r9")],
         ApiOp.statusRead "r1", ApiOp.cleanup]) "r1" ≠ some "pending" :=
  (C8_completed_status_never_regresses ⟨[("r1", [("status", JVal.s "x")])], []⟩ "r1"
    [ApiOp.resultArrives [("request_id", JVal.s "r9")],
     ApiOp.statusRead "r1", ApiOp.cleanup] rfl).2.1

end ClipApp
